import Mathlib

/-!
Shallow embedding of the move-scoring heuristic of `src/agent.py`
(class `MyAgent`, a decision policy for a turn-based battle bot).

Python floats are modelled as exact rationals (ℚ); the claims verified
here concern zero / positivity / selection structure, never float
rounding.  The external damage calculator `calculate_damage` and the
type-effectiveness lookup `Pokemon.damage_multiplier` live outside the
repository and are passed in as opaque function parameters (`Oracle`,
`DmgMult`).  The mutable per-battle map `self.used_trick` is threaded
explicitly as a `TrickMap`.

The `unseal` below only lifts the reducibility seal on the library's
rational-number primitives so that concrete scores can be evaluated by
`decide`; it adds no axioms.
-/

unseal Rat.add Rat.sub Rat.mul Rat.inv Nat.gcd

/-- Substring helper: is `pat` a prefix of `s` (as char lists)?  Models
Python's string containment test used via `"trick" in move_id`. -/
def prefixAt : List Char → List Char → Bool
  | [], _ => true
  | _ :: _, [] => false
  | a :: as, b :: bs => a = b && prefixAt as bs

/-- Does `s` contain `pat` as a contiguous substring (char-list level)? -/
def hasSubstr (pat : List Char) : List Char → Bool
  | [] => prefixAt pat []
  | c :: rest => prefixAt pat (c :: rest) || hasSubstr pat rest

/-- Python `pat in s` on strings. -/
def strContains (s pat : String) : Bool :=
  hasSubstr pat.data s.data

/-- Move category enum of the external library (`MoveCategory`). -/
inductive MoveCategory
  | physical
  | special
  | status
deriving DecidableEq, Repr

/-- The fields of the external `Move` object that the agent reads.
`base_power = 0` models both "no base power" and a literal 0 (both are
falsy in the Python source).  `self_boost` and `boosts` are the items of
the Python dicts, in iteration order. -/
structure Move where
  id : String
  category : MoveCategory
  base_power : Nat
  accuracy : ℚ
  side_condition : Option String
  self_boost : List (String × Int)
  status : Option String
  is_protect_move : Bool
  boosts : List (String × Int)
deriving DecidableEq, Repr

/-- The fields of the external `Pokemon` object that the agent reads.
`max_hp = 0` models an unknown/None max HP (falsy in Python).
`types` may contain `none` entries, matching the source's
`if t is not None` filters. -/
structure Pokemon where
  current_hp_fraction : ℚ
  max_hp : Nat
  fainted : Bool
  ability : Option String
  types : List (Option String)
  base_stats : List (String × Nat)
  boosts : List (String × Int)
  status : Option String
  protect_counter : Nat
deriving DecidableEq, Repr

/-- The read-only battle snapshot consumed by the agent. -/
structure Battle where
  turn : Nat
  active_pokemon : Option Pokemon
  opponent_active_pokemon : Option Pokemon
  team : List Pokemon
  opponent_team : List Pokemon
  side_conditions : List String
  opponent_side_conditions : List String
  available_moves : List Move
  available_switches : List Pokemon
  battle_tag : String
deriving DecidableEq, Repr

/-- Result of one call to the external damage calculator: either an
exception (`fail`, caught by the agent's `try/except`) or a list of
damage rolls.  Per the oracle's contract a successful list is non-empty;
the agent nevertheless guards the empty case (Python truthiness). -/
inductive DamageResult
  | fail
  | ok (damage_range : List Nat)
deriving DecidableEq, Repr

/-- The external damage oracle, applied to
(attacker, defender, move, battle) exactly as in the source. -/
abbrev Oracle := Option Pokemon → Option Pokemon → Move → Battle → DamageResult

/-- The external type-effectiveness lookup:
`dmgMult defender t` models `defender.damage_multiplier(t)`. -/
abbrev DmgMult := Pokemon → String → ℚ

/-- `self.used_trick`: Python dict battle_tag → bool, as an association
list where the most recent binding wins. -/
abbrev TrickMap := List (String × Bool)

/-- `self.used_trick.get(tag, False)`. -/
def trickGet (m : TrickMap) (tag : String) : Bool :=
  (m.lookup tag).getD false

/-- `self.used_trick[tag] = v` (newest binding shadows older ones,
which models dict assignment since lookups take the newest). -/
def trickSet (m : TrickMap) (tag : String) (v : Bool) : TrickMap :=
  (tag, v) :: m

/-- Python `max(l, default=d)` over rationals: max element, or the
default when the list is empty. -/
def pyMaxD (l : List ℚ) (d : ℚ) : ℚ :=
  match l with
  | [] => d
  | x :: xs => xs.foldl max x

/-- Loop body of Python `max(l, key)`: keep the current best unless the
new element's key is strictly greater (so the first maximum wins). -/
def pyMaxByAux {α : Type} (key : α → ℚ) (best : α) : List α → α
  | [] => best
  | y :: ys => pyMaxByAux key (if key y > key best then y else best) ys

/-- Python `max(l, key)` (raises on empty, hence `Option`). -/
def pyMaxBy {α : Type} (key : α → ℚ) : List α → Option α
  | [] => none
  | x :: xs => some (pyMaxByAux key x xs)

/-- `MyAgent.count_remaining_mons`. -/
def count_remaining_mons (team : List Pokemon) : Nat :=
  team.countP (fun mon => !mon.fainted)

/-- `MyAgent.estimate_remaining_turns`. -/
def estimate_remaining_turns (battle : Battle) : Nat :=
  let turn := battle.turn
  let base_estimate : Nat :=
    if turn ≤ 5 then 12
    else if turn ≤ 15 then 8
    else 4
  let our_remaining := count_remaining_mons battle.team
  let opp_remaining := count_remaining_mons battle.opponent_team
  let min_remaining := min our_remaining opp_remaining
  let base_estimate :=
    if min_remaining ≤ 2 then min base_estimate 5 else base_estimate
  max 3 (min 15 base_estimate)

/-- `MyAgent.evaluate_damage_move`: mean of the oracle's rolls; on
oracle failure, `move.base_power if move.base_power else 0`; 0 when the
oracle returns a falsy (empty) range. -/
def evaluate_damage_move (oracle : Oracle) (battle : Battle) (move : Move) : ℚ :=
  match oracle battle.active_pokemon battle.opponent_active_pokemon move battle with
  | .fail => if move.base_power ≠ 0 then (move.base_power : ℚ) else 0
  | .ok damage_range =>
    if damage_range ≠ [] then
      ((damage_range.map (fun d : Nat => (d : ℚ))).sum) / (damage_range.length : ℚ)
    else 0

/-- `MyAgent.get_best_damage_score`: best damage score among available
moves (optionally category-filtered), falling back to 120 when no
damaging move scores positively. -/
def get_best_damage_score (oracle : Oracle) (battle : Battle)
    (category : Option MoveCategory) : ℚ :=
  let best_score := battle.available_moves.foldl
    (fun best move =>
      if (match category with | some c => move.category ≠ c | none => false : Bool) then best
      else if move.category = .physical ∨ move.category = .special then
        max best (evaluate_damage_move oracle battle move)
      else best)
    0
  if best_score > 0 then best_score else 120

/-- `MyAgent.estimate_matchup`. -/
def estimate_matchup (dmgMult : DmgMult)
    (mon opponent : Option Pokemon) : ℚ :=
  match mon, opponent with
  | some mon, some opponent =>
    let offensive_advantage :=
      pyMaxD ((mon.types.filterMap id).map (fun t => dmgMult opponent t)) 1
    let score : ℚ := (offensive_advantage - 1) * 2
    let defensive_advantage :=
      pyMaxD ((opponent.types.filterMap id).map (fun t => dmgMult mon t)) 1
    let score := score - (defensive_advantage - 1) * 2
    let score :=
      if (mon.base_stats.lookup "spe").getD 0 > (opponent.base_stats.lookup "spe").getD 0
      then score + 1
      else if (mon.base_stats.lookup "spe").getD 0 < (opponent.base_stats.lookup "spe").getD 0
      then score - 1
      else score
    let score := score + mon.current_hp_fraction * 2
    let score := score - opponent.current_hp_fraction * 2
    score
  | _, _ => 0

/-- `MyAgent.is_favorable_setup_situation`. -/
def is_favorable_setup_situation (dmgMult : DmgMult) (battle : Battle) : Bool :=
  match battle.active_pokemon, battle.opponent_active_pokemon with
  | some active, some opponent =>
    if active.current_hp_fraction < 4/5 then false
    else if estimate_matchup dmgMult (some active) (some opponent) < 0 then false
    else true
  | _, _ => false

/-- `MyAgent.max_dmg_move`: the non-status move with strictly highest
`evaluate_damage_move` score (first seen wins; `none` when no
non-status move exists). -/
def max_dmg_move (oracle : Oracle) (battle : Battle) : Option Move :=
  (battle.available_moves.foldl
    (fun (acc : Option Move × ℚ) move =>
      if move.category ≠ .status then
        let damage := evaluate_damage_move oracle battle move
        if damage > acc.2 then (some move, damage) else acc
      else acc)
    (none, -1)).1

/-- `MyAgent.evaluate_hazard`. -/
def evaluate_hazard (battle : Battle) (move : Move) : ℚ :=
  let opponent_remaining := count_remaining_mons battle.opponent_team
  if (match move.side_condition with
      | some sc => sc ∈ battle.opponent_side_conditions
      | none => false : Bool) then 0
  else if opponent_remaining ≥ 3 then
    let expected_switches : ℚ := (opponent_remaining : ℚ) * (5/2)
    let avg_hazard_damage : ℚ := 25
    expected_switches * avg_hazard_damage
  else 0

/-- Body of the `for stat, boost_amount in move.self_boost.items()` loop
in `MyAgent.evaluate_setup_move`: `some` models `return`, `none` means
the loop continues with the next item. -/
def setup_boost_step (active : Pokemon) (best_damage : ℚ)
    (expected_attacks : Nat) (item : String × Int) : Option ℚ :=
  let stat := item.1
  let boost_amount := item.2
  let current_boost := (active.boosts.lookup stat).getD 0
  if boost_amount > 0 ∧ current_boost < 6 then
    let boosted_damage := best_damage * (3/2)
    let extra_damage := (boosted_damage - best_damage) * (expected_attacks : ℚ)
    let opportunity_cost := best_damage * (1/2)
    some (max 0 (extra_damage - opportunity_cost))
  else if boost_amount < 0 ∧ current_boost > -6 then
    some (best_damage * (7/10))
  else none

/-- `MyAgent.evaluate_setup_move`. -/
def evaluate_setup_move (oracle : Oracle) (dmgMult : DmgMult)
    (battle : Battle) (move : Move) : ℚ :=
  match battle.active_pokemon with
  | none => 0
  | some active =>
    if ¬ is_favorable_setup_situation dmgMult battle then 0
    else
      let best_damage := get_best_damage_score oracle battle none
      let remaining_turns := estimate_remaining_turns battle
      let expected_attacks := min 3 (remaining_turns / 2)
      if move.self_boost ≠ [] then
        (move.self_boost.findSome?
          (setup_boost_step active best_damage expected_attacks)).getD 0
      else 0

/-- `MyAgent.evaluate_status_infliction`. -/
def evaluate_status_infliction (battle : Battle) (move : Move) : ℚ :=
  match battle.opponent_active_pokemon with
  | none => 0
  | some opponent =>
    if opponent.status.isSome then 0
    else
      let opponent_hp : ℚ := if opponent.max_hp ≠ 0 then (opponent.max_hp : ℚ) else 100
      let remaining_turns := estimate_remaining_turns battle
      if move.accuracy ≥ 17/20 then
        let turns_active := min remaining_turns 8
        let hp_damage := opponent_hp * (1/25) * (turns_active : ℚ)
        hp_damage * move.accuracy
      else if move.accuracy ≥ 7/10 then
        let turns_active := min remaining_turns 6
        let hp_damage := opponent_hp * (3/100) * (turns_active : ℚ)
        hp_damage * move.accuracy
      else 0

/-- `MyAgent.evaluate_protect`.  (When `battle.active_pokemon` is None
the Python source would raise at `active.ability`; that state is
unreachable from `choose_move` — the branch returns 0 here.) -/
def evaluate_protect (oracle : Oracle) (battle : Battle) (_move : Move) : ℚ :=
  match battle.active_pokemon with
  | none => 0
  | some active =>
    let protect_counter := active.protect_counter
    if protect_counter ≥ 2 then 0
    else if (match active.ability with
             | some a => strContains a.toLower "poison heal"
             | none => false : Bool) then
      let heal_value := (if active.max_hp ≠ 0 then (active.max_hp : ℚ) else 100) * (1/8)
      if protect_counter = 0 then heal_value
      else heal_value * (1/2)
    else if protect_counter = 0 then
      (get_best_damage_score oracle battle none) * (2/5)
    else 0

/-- Tail of one iteration of the debuff loop once `best_damage` is
known: the `extra_damage_per_hit` / `total_value` computation and the
diminishing-returns returns of `MyAgent.evaluate_debuff`. -/
def debuff_value (best_damage : ℚ) (current_boost : Int)
    (expected_attacks : Nat) : ℚ :=
  let extra_damage_per_hit := best_damage * (1/2)
  let total_value := extra_damage_per_hit * (expected_attacks : ℚ)
  if current_boost = 0 then total_value
  else if current_boost ≥ -2 then total_value * (1/4)
  else total_value * (1/20)

/-- Body of the `for stat, debuff_amount in move.boosts.items()` loop in
`MyAgent.evaluate_debuff`: `some` models `return`. -/
def debuff_step (oracle : Oracle) (battle : Battle) (opponent : Pokemon)
    (expected_attacks : Nat) (item : String × Int) : Option ℚ :=
  let stat := item.1
  let debuff_amount := item.2
  if debuff_amount < 0 then
    let current_boost := (opponent.boosts.lookup stat).getD 0
    if current_boost ≤ -6 then some 0
    else if stat = "def" then
      let best_damage := get_best_damage_score oracle battle (some .physical)
      if best_damage = 0 then some 0
      else some (debuff_value best_damage current_boost expected_attacks)
    else if stat = "spd" then
      let best_damage := get_best_damage_score oracle battle (some .special)
      if best_damage = 0 then some 0
      else some (debuff_value best_damage current_boost expected_attacks)
    else
      some (debuff_value (get_best_damage_score oracle battle none)
        current_boost expected_attacks)
  else none

/-- `MyAgent.evaluate_debuff`. -/
def evaluate_debuff (oracle : Oracle) (battle : Battle) (move : Move) : ℚ :=
  match battle.opponent_active_pokemon, battle.active_pokemon with
  | some opponent, some _active =>
    if move.boosts = [] then 0
    else
      let remaining_turns := estimate_remaining_turns battle
      let expected_attacks := min 2 (remaining_turns / 3)
      (move.boosts.findSome?
        (debuff_step oracle battle opponent expected_attacks)).getD 0
  | _, _ => 0

/-- `MyAgent.evaluate_utility`.  Returns the score and the updated
`used_trick` map (the only mutation the scorer ever performs). -/
def evaluate_utility (oracle : Oracle) (st : TrickMap)
    (battle : Battle) (move : Move) : ℚ × TrickMap :=
  let move_id := move.id
  if strContains move_id "trick" then
    let battle_tag := battle.battle_tag
    if trickGet st battle_tag then (0, st)
    else
      let st := trickSet st battle_tag true
      let remaining_turns := estimate_remaining_turns battle
      let best_damage := get_best_damage_score oracle battle none
      if remaining_turns > 5 then (best_damage * (3/2), st)
      else (best_damage * (4/5), st)
  else if strContains move_id "rapidspin" || strContains move_id "defog" then
    if battle.side_conditions ≠ [] ∧ count_remaining_mons battle.team ≥ 2 then
      let our_remaining := count_remaining_mons battle.team
      let expected_switches : ℚ := (our_remaining : ℚ) * (3/2)
      (expected_switches * 25, st)
    else (0, st)
  else if strContains move_id "uturn" || strContains move_id "voltswitch"
      || strContains move_id "flipturn" then
    (evaluate_damage_move oracle battle move, st)
  else (50, st)

/-- `MyAgent.evaluate_status_move`: ordered dispatch on the move's
shape (Python attribute truthiness). -/
def evaluate_status_move (oracle : Oracle) (dmgMult : DmgMult) (st : TrickMap)
    (battle : Battle) (move : Move) : ℚ × TrickMap :=
  if move.side_condition.isSome then (evaluate_hazard battle move, st)
  else if move.self_boost ≠ [] then (evaluate_setup_move oracle dmgMult battle move, st)
  else if move.status.isSome then (evaluate_status_infliction battle move, st)
  else if move.is_protect_move then (evaluate_protect oracle battle move, st)
  else if move.boosts ≠ [] then (evaluate_debuff oracle battle move, st)
  else evaluate_utility oracle st battle move

/-- `MyAgent.calculate_move_score`. -/
def calculate_move_score (oracle : Oracle) (dmgMult : DmgMult) (st : TrickMap)
    (battle : Battle) (move : Move) : ℚ × TrickMap :=
  if move.category = .status then
    evaluate_status_move oracle dmgMult st battle move
  else if some move = max_dmg_move oracle battle then
    (evaluate_damage_move oracle battle move, st)
  else
    (0, st)

/-- One pass of the `move_scores` list comprehension of
`MyAgent.choose_move` over a list of moves, evaluated left to right and
threading the `used_trick` state. -/
def score_moves_aux (oracle : Oracle) (dmgMult : DmgMult) (battle : Battle) :
    List Move → TrickMap → List (Move × ℚ) × TrickMap
  | [], st => ([], st)
  | move :: rest, st =>
    let r := calculate_move_score oracle dmgMult st battle move
    let t := score_moves_aux oracle dmgMult battle rest r.2
    ((move, r.1) :: t.1, t.2)

/-- The `move_scores` list comprehension of `MyAgent.choose_move`. -/
def score_moves (oracle : Oracle) (dmgMult : DmgMult) (st : TrickMap)
    (battle : Battle) : List (Move × ℚ) × TrickMap :=
  score_moves_aux oracle dmgMult battle battle.available_moves st

/-- The action returned by `MyAgent.choose_move`:
`self.create_order(move)`, `self.create_order(switch)` or
`self.choose_random_move(battle)`. -/
inductive BattleOrder
  | UseMove (m : Move)
  | SwitchTo (p : Pokemon)
  | RandomFallback
deriving DecidableEq, Repr

/-- `MyAgent.choose_move`. -/
def choose_move (oracle : Oracle) (dmgMult : DmgMult) (st : TrickMap)
    (battle : Battle) : BattleOrder × TrickMap :=
  if battle.available_moves ≠ [] then
    let r := score_moves oracle dmgMult st battle
    match pyMaxBy Prod.snd r.1 with
    | some best => (.UseMove best.1, r.2)
    | none => (.RandomFallback, r.2)
  else if battle.available_switches ≠ [] then
    match pyMaxBy Pokemon.current_hp_fraction battle.available_switches with
    | some switch => (.SwitchTo switch, st)
    | none => (.RandomFallback, st)
  else
    (.RandomFallback, st)

/-! ### Concrete fixtures (moves, Pokémon, battles, oracles) used to
exhibit concrete behaviours of the embedded agent -/

/-- Physical attack fixture (Earthquake-like). -/
def mEarthquake : Move where
  id := "earthquake"
  category := .physical
  base_power := 100
  accuracy := 1
  side_condition := none
  self_boost := []
  status := none
  is_protect_move := false
  boosts := []

/-- Physical attack fixture (Stone Edge-like). -/
def mStoneEdge : Move where
  id := "stoneedge"
  category := .physical
  base_power := 80
  accuracy := 4/5
  side_condition := none
  self_boost := []
  status := none
  is_protect_move := false
  boosts := []

/-- Entry-hazard status move fixture (Stealth Rock-like). -/
def mStealthRock : Move where
  id := "stealthrock"
  category := .status
  base_power := 0
  accuracy := 1
  side_condition := some "stealthrock"
  self_boost := []
  status := none
  is_protect_move := false
  boosts := []

/-- Setup status move fixture (Swords Dance-like). -/
def mSwordsDance : Move where
  id := "swordsdance"
  category := .status
  base_power := 0
  accuracy := 1
  side_condition := none
  self_boost := [("atk", 2)]
  status := none
  is_protect_move := false
  boosts := []

/-- Status-inflicting move fixture (Toxic-like). -/
def mToxic : Move where
  id := "toxic"
  category := .status
  base_power := 0
  accuracy := 9/10
  side_condition := none
  self_boost := []
  status := some "tox"
  is_protect_move := false
  boosts := []

/-- Protection move fixture (Protect-like). -/
def mProtect : Move where
  id := "protect"
  category := .status
  base_power := 0
  accuracy := 1
  side_condition := none
  self_boost := []
  status := none
  is_protect_move := true
  boosts := []

/-- Defense-lowering debuff fixture (Screech-like). -/
def mScreech : Move where
  id := "screech"
  category := .status
  base_power := 0
  accuracy := 17/20
  side_condition := none
  self_boost := []
  status := none
  is_protect_move := false
  boosts := [("def", -2)]

/-- One-shot item-swap utility move fixture (Trick). -/
def mTrick : Move where
  id := "trick"
  category := .status
  base_power := 0
  accuracy := 1
  side_condition := none
  self_boost := []
  status := none
  is_protect_move := false
  boosts := []

/-- A healthy Pokémon fixture. -/
def pkHealthy : Pokemon where
  current_hp_fraction := 1
  max_hp := 300
  fainted := false
  ability := none
  types := [some "ground"]
  base_stats := [("spe", 95)]
  boosts := []
  status := none
  protect_counter := 0

/-- A Pokémon at 50% HP. -/
def pkLowHP : Pokemon where
  current_hp_fraction := 1/2
  max_hp := 300
  fainted := false
  ability := none
  types := [some "ground"]
  base_stats := [("spe", 95)]
  boosts := []
  status := none
  protect_counter := 0

/-- A burned Pokémon (already carries a major status). -/
def pkBurned : Pokemon where
  current_hp_fraction := 1
  max_hp := 300
  fainted := false
  ability := none
  types := [some "ground"]
  base_stats := [("spe", 95)]
  boosts := []
  status := some "brn"
  protect_counter := 0

/-- A Poison Heal Pokémon that has protected twice in a row. -/
def pkPoisonHeal : Pokemon where
  current_hp_fraction := 1
  max_hp := 300
  fainted := false
  ability := some "Poison Heal"
  types := [some "ground"]
  base_stats := [("spe", 95)]
  boosts := []
  status := none
  protect_counter := 2

/-- A fire-typed healthy opponent fixture. -/
def pkOppFire : Pokemon where
  current_hp_fraction := 1
  max_hp := 300
  fainted := false
  ability := none
  types := [some "fire"]
  base_stats := [("spe", 95)]
  boosts := []
  status := none
  protect_counter := 0

/-- Neutral type chart: every multiplier is 1. -/
def dmgMult0 : DmgMult := fun _ _ => 1

/-- Type chart making ground attacks 4x effective (favorable offensive
matchup for a ground-typed user). -/
def dmgMultGround4 : DmgMult := fun _ t => if t = "ground" then 4 else 1

/-- An oracle that always raises. -/
def oracleFail : Oracle := fun _ _ _ _ => .fail

/-- Oracle fixture: Earthquake rolls a single 200, Stone Edge rolls
[80, 85, 90], anything else raises. -/
def oracleC2 : Oracle := fun _ _ m _ =>
  if m.id = "earthquake" then .ok [200]
  else if m.id = "stoneedge" then .ok [80, 85, 90]
  else .fail

/-- Oracle fixture: only Earthquake succeeds, with a single roll of 200. -/
def oracleC10 : Oracle := fun _ _ m _ =>
  if m.id = "earthquake" then .ok [200] else .fail

/-- A battle with no legal moves and no legal switches. -/
def battleEmpty : Battle where
  turn := 1
  active_pokemon := none
  opponent_active_pokemon := none
  team := []
  opponent_team := []
  side_conditions := []
  opponent_side_conditions := []
  available_moves := []
  available_switches := []
  battle_tag := "battle-gen9ou-0"

/-- A battle with two damaging moves available. -/
def battleC2 : Battle where
  turn := 1
  active_pokemon := some pkHealthy
  opponent_active_pokemon := some pkHealthy
  team := [pkHealthy, pkHealthy, pkHealthy]
  opponent_team := [pkHealthy, pkHealthy, pkHealthy]
  side_conditions := []
  opponent_side_conditions := []
  available_moves := [mEarthquake, mStoneEdge]
  available_switches := []
  battle_tag := "battle-gen9ou-2"

/-- A battle in which no physical (indeed no damaging) move is
available; the only move is the Screech-like debuff. -/
def battleC3 : Battle where
  turn := 1
  active_pokemon := some pkHealthy
  opponent_active_pokemon := some pkHealthy
  team := [pkHealthy, pkHealthy, pkHealthy]
  opponent_team := [pkHealthy, pkHealthy, pkHealthy]
  side_conditions := []
  opponent_side_conditions := []
  available_moves := [mScreech]
  available_switches := []
  battle_tag := "battle-gen9ou-3"

/-- A battle whose active Pokémon sits at 50% HP but enjoys a clearly
favorable type matchup (4x offensively under `dmgMultGround4`). -/
def battleC4 : Battle where
  turn := 1
  active_pokemon := some pkLowHP
  opponent_active_pokemon := some pkOppFire
  team := [pkLowHP, pkHealthy, pkHealthy]
  opponent_team := [pkOppFire, pkHealthy, pkHealthy]
  side_conditions := []
  opponent_side_conditions := []
  available_moves := [mSwordsDance]
  available_switches := []
  battle_tag := "battle-gen9ou-4"

/-- A battle where Stealth Rock is already up on the opponent side. -/
def battleC5a : Battle where
  turn := 1
  active_pokemon := some pkHealthy
  opponent_active_pokemon := some pkHealthy
  team := [pkHealthy, pkHealthy, pkHealthy]
  opponent_team := [pkHealthy, pkHealthy, pkHealthy, pkHealthy]
  side_conditions := []
  opponent_side_conditions := ["stealthrock"]
  available_moves := [mStealthRock]
  available_switches := []
  battle_tag := "battle-gen9ou-5a"

/-- A battle with no opposing hazard and four non-fainted opponents. -/
def battleC5b : Battle where
  turn := 1
  active_pokemon := some pkHealthy
  opponent_active_pokemon := some pkHealthy
  team := [pkHealthy, pkHealthy, pkHealthy]
  opponent_team := [pkHealthy, pkHealthy, pkHealthy, pkHealthy]
  side_conditions := []
  opponent_side_conditions := []
  available_moves := [mStealthRock]
  available_switches := []
  battle_tag := "battle-gen9ou-5b"

/-- A battle whose opposing active Pokémon is burned. -/
def battleC6 : Battle where
  turn := 1
  active_pokemon := some pkHealthy
  opponent_active_pokemon := some pkBurned
  team := [pkHealthy, pkHealthy, pkHealthy]
  opponent_team := [pkBurned, pkHealthy, pkHealthy]
  side_conditions := []
  opponent_side_conditions := []
  available_moves := [mToxic]
  available_switches := []
  battle_tag := "battle-gen9ou-6"

/-- A battle whose active Pokémon (with Poison Heal) has already
protected twice in a row. -/
def battleC7 : Battle where
  turn := 1
  active_pokemon := some pkPoisonHeal
  opponent_active_pokemon := some pkHealthy
  team := [pkPoisonHeal, pkHealthy, pkHealthy]
  opponent_team := [pkHealthy, pkHealthy, pkHealthy]
  side_conditions := []
  opponent_side_conditions := []
  available_moves := [mProtect]
  available_switches := []
  battle_tag := "battle-gen9ou-7"

/-- A battle whose only move is Trick. -/
def battleC9 : Battle where
  turn := 1
  active_pokemon := some pkHealthy
  opponent_active_pokemon := some pkHealthy
  team := [pkHealthy, pkHealthy, pkHealthy]
  opponent_team := [pkHealthy, pkHealthy, pkHealthy]
  side_conditions := []
  opponent_side_conditions := []
  available_moves := [mTrick]
  available_switches := []
  battle_tag := "battle-gen9ou-9"

/-- A late-game battle offering both Earthquake and Trick, where
Earthquake outscores Trick. -/
def battleC10 : Battle where
  turn := 20
  active_pokemon := some pkHealthy
  opponent_active_pokemon := some pkHealthy
  team := [pkHealthy, pkHealthy, pkHealthy]
  opponent_team := [pkHealthy, pkHealthy, pkHealthy]
  side_conditions := []
  opponent_side_conditions := []
  available_moves := [mEarthquake, mTrick]
  available_switches := []
  battle_tag := "battle-gen9ou-10"

/-! ### Helper lemmas -/

lemma trickGet_trickSet_self (st : TrickMap) (t : String) (v : Bool) :
    trickGet (trickSet st t v) t = v := by
  simp [trickGet, trickSet, List.lookup]

lemma trickGet_trickSet_other (st : TrickMap) (t tag : String) (v : Bool)
    (h : tag ≠ t) :
    trickGet (trickSet st t v) tag = trickGet st tag := by
  have hb : (tag == t) = false := by simp [h]
  simp [trickGet, trickSet, List.lookup, hb]

lemma trickGet_trickSet_true (st : TrickMap) (t tag : String)
    (h : trickGet st tag = true) :
    trickGet (trickSet st t true) tag = true := by
  by_cases htag : tag = t
  · subst htag; exact trickGet_trickSet_self st tag true
  · rw [trickGet_trickSet_other st t tag true htag]; exact h

lemma evaluate_damage_move_nonneg (oracle : Oracle) (battle : Battle) (move : Move) :
    0 ≤ evaluate_damage_move oracle battle move := by
  unfold evaluate_damage_move
  split
  · split
    · exact Nat.cast_nonneg _
    · exact le_refl (0 : ℚ)
  · split
    · apply div_nonneg
      · apply List.sum_nonneg
        intro x hx
        obtain ⟨d, _, rfl⟩ := List.mem_map.mp hx
        exact Nat.cast_nonneg d
      · exact Nat.cast_nonneg _
    · exact le_refl (0 : ℚ)

lemma ite_pos_or_fallback (b : ℚ) : 0 < if b > 0 then b else 120 := by
  split
  · assumption
  · norm_num

lemma get_best_damage_score_pos (oracle : Oracle) (battle : Battle)
    (category : Option MoveCategory) :
    0 < get_best_damage_score oracle battle category := by
  unfold get_best_damage_score
  exact ite_pos_or_fallback _

lemma pyMaxByAux_spec {α : Type} (key : α → ℚ) (l : List α) :
    ∀ best : α,
      (pyMaxByAux key best l = best ∧ ∀ y ∈ l, key y ≤ key best) ∨
      (∃ l1 l2, l = l1 ++ pyMaxByAux key best l :: l2 ∧
        key best < key (pyMaxByAux key best l) ∧
        (∀ y ∈ l1, key y < key (pyMaxByAux key best l)) ∧
        (∀ y ∈ l2, key y ≤ key (pyMaxByAux key best l))) := by
  induction l with
  | nil =>
    intro best
    left
    exact ⟨rfl, by simp⟩
  | cons y ys ih =>
    intro best
    by_cases h : key y > key best
    · have hred : pyMaxByAux key best (y :: ys) = pyMaxByAux key y ys := by
        simp only [pyMaxByAux, if_pos h]
      rw [hred]
      rcases ih y with ⟨heq, hall⟩ | ⟨l1, l2, heq, hgt, hl1, hl2⟩
      · right
        refine ⟨[], ys, by simp [heq], ?_, by simp, ?_⟩
        · rw [heq]; exact h
        · intro z hz; rw [heq]; exact hall z hz
      · right
        refine ⟨y :: l1, l2, by simpa using heq, lt_trans h hgt, ?_, hl2⟩
        intro z hz
        rcases List.mem_cons.mp hz with rfl | hz'
        · exact hgt
        · exact hl1 z hz'
    · have hred : pyMaxByAux key best (y :: ys) = pyMaxByAux key best ys := by
        simp only [pyMaxByAux, if_neg h]
      rw [hred]
      push_neg at h
      rcases ih best with ⟨heq, hall⟩ | ⟨l1, l2, heq, hgt, hl1, hl2⟩
      · left
        refine ⟨heq, ?_⟩
        intro z hz
        rcases List.mem_cons.mp hz with rfl | hz'
        · exact h
        · exact hall z hz'
      · right
        refine ⟨y :: l1, l2, by simpa using heq, hgt, ?_, hl2⟩
        intro z hz
        rcases List.mem_cons.mp hz with rfl | hz'
        · exact lt_of_le_of_lt h hgt
        · exact hl1 z hz'

lemma pyMaxBy_spec {α : Type} (key : α → ℚ) (l : List α) (hne : l ≠ []) :
    ∃ r l1 l2, pyMaxBy key l = some r ∧ l = l1 ++ r :: l2 ∧
      (∀ y ∈ l1, key y < key r) ∧ (∀ y ∈ l, key y ≤ key r) := by
  match l, hne with
  | x :: xs, _ =>
    rcases pyMaxByAux_spec key xs x with ⟨heq, hall⟩ | ⟨l1, l2, heq, hgt, hl1, hl2⟩
    · refine ⟨x, [], xs, by simp [pyMaxBy, heq], by simp, by simp, ?_⟩
      intro z hz
      rcases List.mem_cons.mp hz with rfl | hz'
      · exact le_refl _
      · exact hall z hz'
    · refine ⟨pyMaxByAux key x xs, x :: l1, l2, by simp [pyMaxBy], by simpa using heq, ?_, ?_⟩
      · intro z hz
        rcases List.mem_cons.mp hz with rfl | hz'
        · exact hgt
        · exact hl1 z hz'
      · intro z hz
        rcases List.mem_cons.mp hz with rfl | hz'
        · exact le_of_lt hgt
        · rw [heq] at hz'
          rcases List.mem_append.mp hz' with hz1 | hz2
          · exact le_of_lt (hl1 z hz1)
          · rcases List.mem_cons.mp hz2 with rfl | hz3
            · exact le_refl _
            · exact hl2 z hz3

lemma evaluate_utility_mono (oracle : Oracle) (st : TrickMap) (battle : Battle)
    (move : Move) (tag : String) (h : trickGet st tag = true) :
    trickGet (evaluate_utility oracle st battle move).2 tag = true := by
  unfold evaluate_utility
  dsimp only
  by_cases h1 : strContains move.id "trick" = true
  · rw [if_pos h1]
    by_cases h2 : trickGet st battle.battle_tag = true
    · rw [if_pos h2]
      exact h
    · rw [if_neg h2]
      split
      · exact trickGet_trickSet_true st battle.battle_tag tag h
      · exact trickGet_trickSet_true st battle.battle_tag tag h
  · rw [if_neg h1]
    by_cases h2 : (strContains move.id "rapidspin" || strContains move.id "defog") = true
    · rw [if_pos h2]
      split
      · exact h
      · exact h
    · rw [if_neg h2]
      split
      · exact h
      · exact h

lemma evaluate_status_move_mono (oracle : Oracle) (dmgMult : DmgMult) (st : TrickMap)
    (battle : Battle) (move : Move) (tag : String) (h : trickGet st tag = true) :
    trickGet (evaluate_status_move oracle dmgMult st battle move).2 tag = true := by
  unfold evaluate_status_move
  split
  · exact h
  · split
    · exact h
    · split
      · exact h
      · split
        · exact h
        · split
          · exact h
          · exact evaluate_utility_mono oracle st battle move tag h

lemma calculate_move_score_mono (oracle : Oracle) (dmgMult : DmgMult) (st : TrickMap)
    (battle : Battle) (move : Move) (tag : String) (h : trickGet st tag = true) :
    trickGet (calculate_move_score oracle dmgMult st battle move).2 tag = true := by
  unfold calculate_move_score
  split
  · exact evaluate_status_move_mono oracle dmgMult st battle move tag h
  · split
    · exact h
    · exact h

/-- A status move with none of the hazard / setup / status / protect /
debuff shapes and a Trick-family identifier marks the battle's
`used_trick` flag when scored. -/
lemma calculate_move_score_marks_trick (oracle : Oracle) (dmgMult : DmgMult)
    (st : TrickMap) (battle : Battle) (move : Move)
    (hcat : move.category = MoveCategory.status)
    (hsc : move.side_condition = none) (hsb : move.self_boost = [])
    (hst : move.status = none) (hpr : move.is_protect_move = false)
    (hbo : move.boosts = [])
    (htrick : strContains move.id "trick" = true) :
    trickGet (calculate_move_score oracle dmgMult st battle move).2
      battle.battle_tag = true := by
  unfold calculate_move_score
  rw [if_pos hcat]
  unfold evaluate_status_move
  rw [hsc, hsb, hst, hpr, hbo]
  simp only [Option.isSome_none, Bool.false_eq_true, if_false, ne_eq,
    not_true_eq_false, if_true, not_false_eq_true]
  unfold evaluate_utility
  dsimp only
  rw [if_pos htrick]
  by_cases hused : trickGet st battle.battle_tag = true
  · rw [if_pos hused]
    exact hused
  · rw [if_neg hused]
    split
    · exact trickGet_trickSet_self st battle.battle_tag true
    · exact trickGet_trickSet_self st battle.battle_tag true

lemma score_moves_aux_map_fst (oracle : Oracle) (dmgMult : DmgMult) (battle : Battle) :
    ∀ (l : List Move) (st : TrickMap),
      ((score_moves_aux oracle dmgMult battle l st).1).map Prod.fst = l := by
  intro l
  induction l with
  | nil => intro st; rfl
  | cons m rest ih =>
    intro st
    simp only [score_moves_aux, List.map_cons]
    rw [ih]

lemma score_moves_aux_mono (oracle : Oracle) (dmgMult : DmgMult) (battle : Battle)
    (tag : String) :
    ∀ (l : List Move) (st : TrickMap), trickGet st tag = true →
      trickGet (score_moves_aux oracle dmgMult battle l st).2 tag = true := by
  intro l
  induction l with
  | nil => intro st h; exact h
  | cons m rest ih =>
    intro st h
    simp only [score_moves_aux]
    exact ih _ (calculate_move_score_mono oracle dmgMult st battle m tag h)

lemma score_moves_aux_marks_trick (oracle : Oracle) (dmgMult : DmgMult)
    (battle : Battle) (move : Move)
    (hcat : move.category = MoveCategory.status)
    (hsc : move.side_condition = none) (hsb : move.self_boost = [])
    (hst : move.status = none) (hpr : move.is_protect_move = false)
    (hbo : move.boosts = [])
    (htrick : strContains move.id "trick" = true) :
    ∀ (l : List Move) (st : TrickMap), move ∈ l →
      trickGet (score_moves_aux oracle dmgMult battle l st).2
        battle.battle_tag = true := by
  intro l
  induction l with
  | nil => intro st h; exact absurd h (List.not_mem_nil move)
  | cons m rest ih =>
    intro st hmem
    simp only [score_moves_aux]
    rcases List.mem_cons.mp hmem with rfl | h'
    · exact score_moves_aux_mono oracle dmgMult battle battle.battle_tag rest _
        (calculate_move_score_marks_trick oracle dmgMult st battle move
          hcat hsc hsb hst hpr hbo htrick)
    · exact ih _ h'

lemma choose_move_state_eq (oracle : Oracle) (dmgMult : DmgMult) (st : TrickMap)
    (battle : Battle) (hne : battle.available_moves ≠ []) :
    (choose_move oracle dmgMult st battle).2 =
      (score_moves oracle dmgMult st battle).2 := by
  unfold choose_move
  rw [if_pos hne]
  dsimp only
  cases pyMaxBy Prod.snd (score_moves oracle dmgMult st battle).1 with
  | none => rfl
  | some best => rfl

lemma choose_move_mono (oracle : Oracle) (dmgMult : DmgMult) (st : TrickMap)
    (battle : Battle) (tag : String) (h : trickGet st tag = true) :
    trickGet (choose_move oracle dmgMult st battle).2 tag = true := by
  by_cases hne : battle.available_moves ≠ []
  · rw [choose_move_state_eq oracle dmgMult st battle hne]
    exact score_moves_aux_mono oracle dmgMult battle tag battle.available_moves st h
  · unfold choose_move
    rw [if_neg hne]
    split
    · split
      · exact h
      · exact h
    · exact h

/-- Scoring a Trick-shaped status move when the battle's `used_trick`
flag is already set yields 0. -/
lemma calculate_move_score_trick_used (oracle : Oracle) (dmgMult : DmgMult)
    (st : TrickMap) (battle : Battle) (move : Move)
    (hcat : move.category = MoveCategory.status)
    (hsc : move.side_condition = none) (hsb : move.self_boost = [])
    (hst : move.status = none) (hpr : move.is_protect_move = false)
    (hbo : move.boosts = [])
    (htrick : strContains move.id "trick" = true)
    (hused : trickGet st battle.battle_tag = true) :
    (calculate_move_score oracle dmgMult st battle move).1 = 0 := by
  unfold calculate_move_score
  rw [if_pos hcat]
  unfold evaluate_status_move
  rw [hsc, hsb, hst, hpr, hbo]
  simp only [Option.isSome_none, Bool.false_eq_true, if_false, ne_eq,
    not_true_eq_false, if_true, not_false_eq_true]
  unfold evaluate_utility
  dsimp only
  rw [if_pos htrick, if_pos hused]

/-! ### Claim theorems -/

/-- C4: for every battle snapshot whose active Pokémon has current HP
fraction below 0.8, and every move, the setup evaluator
`evaluate_setup_move` returns exactly 0, for every type-effectiveness
lookup (hence independently of the matchup estimate's sign). -/
theorem C4_setup_zero_when_hp_below_08 (oracle : Oracle) (dmgMult : DmgMult)
    (battle : Battle) (move : Move) (active : Pokemon)
    (hactive : battle.active_pokemon = some active)
    (hhp : active.current_hp_fraction < 4/5) :
    evaluate_setup_move oracle dmgMult battle move = 0 := by
  have hfav : is_favorable_setup_situation dmgMult battle = false := by
    unfold is_favorable_setup_situation
    rw [hactive]
    cases battle.opponent_active_pokemon with
    | none => rfl
    | some opp =>
      dsimp only
      rw [if_pos hhp]
  unfold evaluate_setup_move
  rw [hactive]
  simp [hfav]

/-- C4 witness: with the active Pokémon at 50% HP and a 4x-favorable
offensive matchup, Swords Dance still scores 0. -/
theorem C4_witness :
    pkLowHP.current_hp_fraction < 4/5 ∧
    0 < estimate_matchup dmgMultGround4 battleC4.active_pokemon
        battleC4.opponent_active_pokemon ∧
    evaluate_setup_move oracleFail dmgMultGround4 battleC4 mSwordsDance = 0 :=
  ⟨by decide, by decide,
    C4_setup_zero_when_hp_below_08 oracleFail dmgMultGround4 battleC4 mSwordsDance
      pkLowHP rfl (by decide)⟩

/-- C5: for every hazard move (a move carrying a side condition), the
hazard evaluator returns exactly 0 when that side condition is already
present on the opponent's side (for any opponent-remaining count), and
when it is absent the score is strictly positive iff the opponent has
at least 3 non-fainted Pokémon remaining. -/
theorem C5_hazard_redundancy_and_threshold (battle : Battle) (move : Move)
    (sc : String) (hsc : move.side_condition = some sc) :
    (sc ∈ battle.opponent_side_conditions → evaluate_hazard battle move = 0) ∧
    (sc ∉ battle.opponent_side_conditions →
      (0 < evaluate_hazard battle move ↔
        3 ≤ count_remaining_mons battle.opponent_team)) := by
  unfold evaluate_hazard
  rw [hsc]
  dsimp only
  constructor
  · intro hmem
    rw [if_pos (decide_eq_true hmem)]
  · intro hnot
    rw [if_neg (by simp [hnot])]
    by_cases hr : count_remaining_mons battle.opponent_team ≥ 3
    · rw [if_pos hr]
      constructor
      · intro _; exact hr
      · intro _
        have h3 : (3 : ℚ) ≤ (count_remaining_mons battle.opponent_team : ℚ) := by
          exact_mod_cast hr
        have hpos : (0 : ℚ) < (count_remaining_mons battle.opponent_team : ℚ) :=
          lt_of_lt_of_le (by norm_num) h3
        have := mul_pos hpos (show (0:ℚ) < 5/2 by norm_num)
        exact mul_pos this (show (0:ℚ) < 25 by norm_num)
    · rw [if_neg hr]
      constructor
      · intro h0; exact absurd h0 (lt_irrefl 0)
      · intro h3; exact absurd h3 hr

/-- C5 witness: with Stealth Rock already on the opponent's side the
score is 0; with no hazard and 4 remaining opponents it is positive. -/
theorem C5_witness :
    evaluate_hazard battleC5a mStealthRock = 0 ∧
    0 < evaluate_hazard battleC5b mStealthRock :=
  ⟨(C5_hazard_redundancy_and_threshold battleC5a mStealthRock "stealthrock" rfl).1
      (by decide),
   ((C5_hazard_redundancy_and_threshold battleC5b mStealthRock "stealthrock" rfl).2
      (by decide)).mpr (by decide)⟩

/-- C6: for every move (hence every accuracy value), the
status-infliction evaluator returns exactly 0 whenever there is no
opposing active Pokémon or the opposing active Pokémon already carries
a major status condition. -/
theorem C6_status_infliction_zero_when_statused (battle : Battle) (move : Move) :
    (battle.opponent_active_pokemon = none →
      evaluate_status_infliction battle move = 0) ∧
    (∀ opp : Pokemon, battle.opponent_active_pokemon = some opp →
      opp.status.isSome = true →
      evaluate_status_infliction battle move = 0) := by
  constructor
  · intro hnone
    unfold evaluate_status_infliction
    rw [hnone]
  · intro opp hopp hstat
    unfold evaluate_status_infliction
    rw [hopp]
    dsimp only
    rw [if_pos hstat]

/-- C6 witness: Toxic (accuracy 0.9 ≥ 0.85) scores 0 against a burned
opponent. -/
theorem C6_witness :
    pkBurned.status.isSome = true ∧
    evaluate_status_infliction battleC6 mToxic = 0 :=
  ⟨by decide,
    (C6_status_infliction_zero_when_statused battleC6 mToxic).2 pkBurned rfl (by decide)⟩

/-- C7: for every battle whose active Pokémon has protected 2 or more
times consecutively, the protect evaluator returns exactly 0, for every
ability (the check precedes the Poison Heal branch). -/
theorem C7_protect_zero_at_counter_two (oracle : Oracle) (battle : Battle)
    (move : Move) (active : Pokemon)
    (hactive : battle.active_pokemon = some active)
    (hcnt : active.protect_counter ≥ 2) :
    evaluate_protect oracle battle move = 0 := by
  unfold evaluate_protect
  rw [hactive]
  dsimp only
  rw [if_pos hcnt]

/-- C7 witness: a Poison Heal user with protect counter 2 still gets a
protect score of 0. -/
theorem C7_witness :
    pkPoisonHeal.ability = some "Poison Heal" ∧
    pkPoisonHeal.protect_counter = 2 ∧
    evaluate_protect oracleFail battleC7 mProtect = 0 :=
  ⟨rfl, rfl,
    C7_protect_zero_at_counter_two oracleFail battleC7 mProtect pkPoisonHeal rfl
      (by decide)⟩

/-- C8: whenever the damage oracle raises for (active, opponent-active,
move, battle), the damage evaluator returns the move's raw base power
(which is 0 when the base power is unknown or zero) instead of
propagating the failure -- `evaluate_damage_move` is total. -/
theorem C8_oracle_failure_falls_back_to_base_power (oracle : Oracle)
    (battle : Battle) (move : Move)
    (hfail : oracle battle.active_pokemon battle.opponent_active_pokemon move battle =
      DamageResult.fail) :
    evaluate_damage_move oracle battle move = (move.base_power : ℚ) := by
  unfold evaluate_damage_move
  rw [hfail]
  by_cases hbp : move.base_power ≠ 0
  · rw [if_pos hbp]
  · rw [if_neg hbp]
    push_neg at hbp
    rw [hbp]
    norm_num

/-- C8 witness: with an always-raising oracle, Earthquake (base power
100) scores exactly its base power. -/
theorem C8_witness :
    evaluate_damage_move oracleFail battleC2 mEarthquake = (mEarthquake.base_power : ℚ) :=
  C8_oracle_failure_falls_back_to_base_power oracleFail battleC2 mEarthquake rfl

/-- C2 counterexample: Stone Edge is a legal damaging (physical) move
whose damage-evaluator score (the oracle mean) is 85, yet
`calculate_move_score` gives it 0 because the other damaging move
(Earthquake, mean 200) is the max-damage move.  This refutes the claim
that every legal damaging move scores to the damage evaluator's result
regardless of other damaging moves. -/
theorem C2_counterexample :
    mStoneEdge.category = MoveCategory.physical ∧
    mStoneEdge ∈ battleC2.available_moves ∧
    evaluate_damage_move oracleC2 battleC2 mStoneEdge = 85 ∧
    (calculate_move_score oracleC2 dmgMult0 [] battleC2 mStoneEdge).1 = 0 :=
  ⟨rfl, by decide, by decide, by decide⟩

/-- C2 (amended): for a damaging move whose oracle call returns a
non-empty damage sequence, `calculate_move_score` returns the arithmetic
mean of that sequence if the move is the battle's max-damage move
(`max_dmg_move`), and 0 otherwise. -/
theorem C2_damaging_move_scores_mean_only_if_max (oracle : Oracle)
    (dmgMult : DmgMult) (st : TrickMap) (battle : Battle) (move : Move)
    (l : List Nat)
    (hcat : move.category ≠ MoveCategory.status)
    (horacle : oracle battle.active_pokemon battle.opponent_active_pokemon move battle =
      DamageResult.ok l)
    (hne : l ≠ []) :
    (calculate_move_score oracle dmgMult st battle move).1 =
      if some move = max_dmg_move oracle battle then
        ((l.map (fun d : Nat => (d : ℚ))).sum) / (l.length : ℚ)
      else 0 := by
  unfold calculate_move_score
  rw [if_neg hcat]
  by_cases hmax : some move = max_dmg_move oracle battle
  · rw [if_pos hmax, if_pos hmax]
    unfold evaluate_damage_move
    rw [horacle]
    dsimp only
    rw [if_pos hne]
  · rw [if_neg hmax, if_neg hmax]

/-- C2 witness: instantiating the amended claim at the concrete
two-damaging-move battle. -/
theorem C2_witness :
    (calculate_move_score oracleC2 dmgMult0 [] battleC2 mStoneEdge).1 =
      if some mStoneEdge = max_dmg_move oracleC2 battleC2 then
        ((([80, 85, 90] : List Nat).map (fun d : Nat => (d : ℚ))).sum) /
          (([80, 85, 90] : List Nat).length : ℚ)
      else 0 :=
  C2_damaging_move_scores_mean_only_if_max oracleC2 dmgMult0 [] battleC2 mStoneEdge
    [80, 85, 90] (by decide) (by decide) (by decide)

/-- C3: the claimed guard is dead code.  In a battle with no physical
move available, `get_best_damage_score` returns its 120-point fallback
(never 0), so the defense-lowering debuff evaluator returns a positive
120 instead of the claimed 0. -/
theorem C3_debuff_positive_without_physical_move :
    (battleC3.available_moves.all
      (fun m => m.category != MoveCategory.physical)) = true ∧
    get_best_damage_score oracleFail battleC3 (some MoveCategory.physical) = 120 ∧
    evaluate_debuff oracleFail battleC3 mScreech = 120 :=
  ⟨by decide, by decide, by decide⟩

/-- C9: for a Trick-family move (identifier containing "trick"), the
utility evaluator scores strictly positively and sets the battle's
`used_trick` flag on first evaluation, scores exactly 0 (leaving the
map unchanged) when the flag is already set, leaves every other battle
identifier's flag untouched, and never clears a set flag -- neither in
the evaluator nor across a whole `choose_move` call. -/
theorem C9_trick_scored_once_per_battle (oracle : Oracle) (st : TrickMap)
    (battle : Battle) (move : Move)
    (htrick : strContains move.id "trick" = true) :
    (trickGet st battle.battle_tag = false →
      0 < (evaluate_utility oracle st battle move).1 ∧
      trickGet (evaluate_utility oracle st battle move).2 battle.battle_tag = true) ∧
    (trickGet st battle.battle_tag = true →
      (evaluate_utility oracle st battle move).1 = 0 ∧
      (evaluate_utility oracle st battle move).2 = st) ∧
    (∀ tag : String, tag ≠ battle.battle_tag →
      trickGet (evaluate_utility oracle st battle move).2 tag = trickGet st tag) ∧
    (∀ tag : String, trickGet st tag = true →
      trickGet (evaluate_utility oracle st battle move).2 tag = true) ∧
    (∀ (dmgMult : DmgMult) (battle2 : Battle) (tag : String),
      trickGet st tag = true →
      trickGet (choose_move oracle dmgMult st battle2).2 tag = true) := by
  unfold evaluate_utility
  dsimp only
  rw [if_pos htrick]
  by_cases hused : trickGet st battle.battle_tag = true
  · rw [if_pos hused]
    refine ⟨?_, ?_, ?_, ?_, ?_⟩
    · intro hfalse
      rw [hused] at hfalse
      cases hfalse
    · intro _
      exact ⟨rfl, rfl⟩
    · intro tag _
      rfl
    · intro tag h
      exact h
    · intro dmgMult battle2 tag h
      exact choose_move_mono oracle dmgMult st battle2 tag h
  · rw [if_neg hused]
    refine ⟨?_, ?_, ?_, ?_, ?_⟩
    · intro _
      constructor
      · split
        · exact mul_pos (get_best_damage_score_pos oracle battle none) (by norm_num)
        · exact mul_pos (get_best_damage_score_pos oracle battle none) (by norm_num)
      · split
        · exact trickGet_trickSet_self st battle.battle_tag true
        · exact trickGet_trickSet_self st battle.battle_tag true
    · intro htrue
      exact absurd htrue hused
    · intro tag hne
      split
      · exact trickGet_trickSet_other st battle.battle_tag tag true hne
      · exact trickGet_trickSet_other st battle.battle_tag tag true hne
    · intro tag h
      split
      · exact trickGet_trickSet_true st battle.battle_tag tag h
      · exact trickGet_trickSet_true st battle.battle_tag tag h
    · intro dmgMult battle2 tag h
      exact choose_move_mono oracle dmgMult st battle2 tag h

/-- C9 witness: on a fresh map, evaluating Trick scores positively and
marks the battle; evaluating it again in the same battle scores 0,
while a different battle identifier is still unmarked. -/
theorem C9_witness :
    0 < (evaluate_utility oracleFail [] battleC9 mTrick).1 ∧
    trickGet (evaluate_utility oracleFail [] battleC9 mTrick).2
      battleC9.battle_tag = true ∧
    (evaluate_utility oracleFail
        (evaluate_utility oracleFail [] battleC9 mTrick).2 battleC9 mTrick).1 = 0 ∧
    trickGet (evaluate_utility oracleFail [] battleC9 mTrick).2
      "battle-gen9ou-other" = false := by
  obtain ⟨hpos, hset⟩ :=
    (C9_trick_scored_once_per_battle oracleFail [] battleC9 mTrick (by decide)).1
      (by decide)
  refine ⟨hpos, hset, ?_, ?_⟩
  · exact ((C9_trick_scored_once_per_battle oracleFail
      (evaluate_utility oracleFail [] battleC9 mTrick).2 battleC9 mTrick
      (by decide)).2.1 hset).1
  · have h3 := (C9_trick_scored_once_per_battle oracleFail [] battleC9 mTrick
      (by decide)).2.2.1 "battle-gen9ou-other" (by decide)
    rw [h3]
    decide

/-- C10: scoring is not observation-only.  If a Trick-shaped status
move (no hazard/setup/status/protect/debuff shape, identifier
containing "trick") is among the legal moves and the battle's
`used_trick` flag is unset, then one `choose_move` call sets the flag
as a side effect of scoring -- whatever action it ultimately returns --
and the move subsequently scores 0 in that battle. -/
theorem C10_choose_move_burns_trick_flag (oracle : Oracle) (dmgMult : DmgMult)
    (st : TrickMap) (battle : Battle) (move : Move)
    (hmem : move ∈ battle.available_moves)
    (hcat : move.category = MoveCategory.status)
    (hsc : move.side_condition = none) (hsb : move.self_boost = [])
    (hstat : move.status = none) (hpr : move.is_protect_move = false)
    (hbo : move.boosts = [])
    (htrick : strContains move.id "trick" = true)
    (_hunused : trickGet st battle.battle_tag = false) :
    trickGet (choose_move oracle dmgMult st battle).2 battle.battle_tag = true ∧
    (calculate_move_score oracle dmgMult (choose_move oracle dmgMult st battle).2
        battle move).1 = 0 := by
  have hne : battle.available_moves ≠ [] := List.ne_nil_of_mem hmem
  have hstate := choose_move_state_eq oracle dmgMult st battle hne
  have hmarked : trickGet (score_moves oracle dmgMult st battle).2
      battle.battle_tag = true :=
    score_moves_aux_marks_trick oracle dmgMult battle move hcat hsc hsb hstat hpr hbo
      htrick battle.available_moves st hmem
  constructor
  · rw [hstate]
    exact hmarked
  · rw [hstate]
    exact calculate_move_score_trick_used oracle dmgMult
      (score_moves oracle dmgMult st battle).2 battle move hcat hsc hsb hstat hpr hbo
      htrick hmarked

/-- C10 witness: in the concrete late-game battle, `choose_move` picks
Earthquake -- not Trick -- yet the Trick flag ends up set and Trick then
scores 0 in this battle despite never having been played. -/
theorem C10_witness :
    (choose_move oracleC10 dmgMult0 [] battleC10).1 = BattleOrder.UseMove mEarthquake ∧
    trickGet (choose_move oracleC10 dmgMult0 [] battleC10).2
      battleC10.battle_tag = true ∧
    (calculate_move_score oracleC10 dmgMult0
        (choose_move oracleC10 dmgMult0 [] battleC10).2 battleC10 mTrick).1 = 0 := by
  obtain ⟨h1, h2⟩ := C10_choose_move_burns_trick_flag oracleC10 dmgMult0 [] battleC10
    mTrick (by decide) rfl rfl rfl rfl rfl rfl (by decide) (by decide)
  exact ⟨by decide, h1, h2⟩

/-- C1: `choose_move` always returns a legal action.  When legal moves
exist it returns the move holding the first-seen maximal score in the
scored list produced by `calculate_move_score` (ties broken by input
order); otherwise, when legal switches exist, it returns a switch
target of maximal current HP fraction; otherwise it returns the random
fallback order. -/
theorem C1_choose_move_is_legal_argmax (oracle : Oracle) (dmgMult : DmgMult)
    (st : TrickMap) (battle : Battle) :
    (battle.available_moves ≠ [] →
      ∃ ms : Move × ℚ, ∃ l1 l2 : List (Move × ℚ),
        (choose_move oracle dmgMult st battle).1 = BattleOrder.UseMove ms.1 ∧
        ms.1 ∈ battle.available_moves ∧
        (score_moves oracle dmgMult st battle).1 = l1 ++ ms :: l2 ∧
        (∀ p ∈ l1, p.2 < ms.2) ∧
        (∀ p ∈ (score_moves oracle dmgMult st battle).1, p.2 ≤ ms.2)) ∧
    (battle.available_moves = [] → battle.available_switches ≠ [] →
      ∃ p : Pokemon,
        (choose_move oracle dmgMult st battle).1 = BattleOrder.SwitchTo p ∧
        p ∈ battle.available_switches ∧
        ∀ q ∈ battle.available_switches,
          q.current_hp_fraction ≤ p.current_hp_fraction) ∧
    (battle.available_moves = [] → battle.available_switches = [] →
      (choose_move oracle dmgMult st battle).1 = BattleOrder.RandomFallback) := by
  refine ⟨?_, ?_, ?_⟩
  · intro hne
    have hmap : ((score_moves oracle dmgMult st battle).1).map Prod.fst =
        battle.available_moves :=
      score_moves_aux_map_fst oracle dmgMult battle battle.available_moves st
    have hscores_ne : (score_moves oracle dmgMult st battle).1 ≠ [] := by
      intro h0
      apply hne
      rw [← hmap, h0]
      rfl
    obtain ⟨r, l1, l2, hpy, hdec, hlt, hle⟩ :=
      pyMaxBy_spec Prod.snd (score_moves oracle dmgMult st battle).1 hscores_ne
    have hr_mem : r ∈ (score_moves oracle dmgMult st battle).1 := by
      rw [hdec]
      exact List.mem_append_right l1 (List.mem_cons_self r l2)
    refine ⟨r, l1, l2, ?_, ?_, hdec, hlt, hle⟩
    · unfold choose_move
      rw [if_pos hne]
      dsimp only
      rw [hpy]
    · rw [← hmap]
      exact List.mem_map_of_mem Prod.fst hr_mem
  · intro hmoves hsw
    obtain ⟨p, l1, l2, hpy, hdec, hlt, hle⟩ :=
      pyMaxBy_spec Pokemon.current_hp_fraction battle.available_switches hsw
    have hp_mem : p ∈ battle.available_switches := by
      rw [hdec]
      exact List.mem_append_right l1 (List.mem_cons_self p l2)
    refine ⟨p, ?_, hp_mem, ?_⟩
    · unfold choose_move
      rw [if_neg (not_not_intro hmoves), if_pos hsw]
      rw [hpy]
    · intro q hq
      exact hle q hq
  · intro hmoves hsw
    unfold choose_move
    rw [if_neg (not_not_intro hmoves), if_neg (not_not_intro hsw)]

/-- C1 witness: with both legal sets empty the fallback order is
returned; in the concrete two-move battle the argmax move (Earthquake,
mean 200 vs 0 for the non-max Stone Edge) is returned. -/
theorem C1_witness :
    (choose_move oracleC2 dmgMult0 [] battleEmpty).1 = BattleOrder.RandomFallback ∧
    (choose_move oracleC2 dmgMult0 [] battleC2).1 = BattleOrder.UseMove mEarthquake :=
  ⟨(C1_choose_move_is_legal_argmax oracleC2 dmgMult0 [] battleEmpty).2.2 rfl rfl,
    by decide⟩
